import Mathlib

/-!
Shallow embedding of the dashboard ingestion core of
`factory-dashboard/src/App.js` (the `App` component's state and its
`useWebSocket` callbacks), for checking the natural-language specification
against the code.

JavaScript/JSON values are modelled by `JSValue`; JSON numbers are modelled
as integers (`ℤ`) — exact arithmetic on the values the claims exercise; no
claim under check depends on non-integral or floating-point behaviour.  The
`nan` constructor represents the IEEE `NaN` produced by numeric coercion of
non-numeric values; `JSON.parse` itself never yields it.
-/

/-- A JavaScript value as it can appear in the message handler: the result of
`JSON.parse` (undef only arises from missing-property access). -/
inductive JSValue where
  | undef
  | null
  | bool (b : Bool)
  | num (q : ℤ)
  | str (s : String)
  | arr (elems : List JSValue)
  | obj (fields : List (String × JSValue))
  | nan

namespace JSValue

/-- JavaScript truthiness: `undefined`, `null`, `false`, `0`, `""` and `NaN`
are falsy; everything else (including `{}` and `[]`) is truthy. -/
def truthy : JSValue → Bool
  | undef => false
  | null => false
  | bool b => b
  | num q => !(q == 0)
  | str s => !(s == "")
  | arr _ => true
  | obj _ => true
  | nan => false

/-- Last-wins lookup in an object's field list (JS object literals and
`JSON.parse` keep the last duplicate key). Missing key gives `undefined`. -/
def lookupField (fields : List (String × JSValue)) (k : String) : JSValue :=
  fields.foldl (fun acc kv => if kv.1 = k then kv.2 else acc) JSValue.undef

/-- Property access `v.k` / `v?.k` as used in the handler.  On objects it is
field lookup; arrays and strings expose `length`; other property reads on
primitives give `undefined`.  On `null`/`undefined` the source only ever uses
optional chaining (`?.`), which short-circuits to `undefined`, so those cases
are `undefined` here; the one plain access (`data.process`, `data.stats`,
`data.bottleStates`) is guarded by `if (data)` and so never sees them. -/
def getProp : JSValue → String → JSValue
  | obj fields, k => lookupField fields k
  | arr elems, k => if k = "length" then num elems.length else undef
  | str s, k => if k = "length" then num s.length else undef
  | _, _ => undef

/-- JavaScript `a || b`: `a` if truthy, else `b`. -/
def jsOr (a b : JSValue) : JSValue :=
  if a.truthy then a else b

/-- JavaScript `v * q` for a rational literal `q` (the source multiplies by
`100`).  Numeric coercion: numbers multiply, booleans coerce to `0`/`1`,
`null` to `0`; coercion of `undefined`, strings, arrays and objects is
modelled as `NaN` (JS additionally parses numeric strings, which no claim
exercises). -/
def jsMul (v : JSValue) (q : ℤ) : JSValue :=
  match v with
  | num n => num (n * q)
  | bool b => num ((if b then (1 : ℤ) else 0) * q)
  | null => num 0
  | _ => nan

/-- JavaScript ternary `v ? 1 : 0`. -/
def toBit (v : JSValue) : ℤ :=
  if v.truthy then 1 else 0

end JSValue

open JSValue

namespace App

/-- One entry of the `timeSeriesData` array, exactly the object literal built
in `onMessage` (lines 39–58 of `App.js`).  Fields produced by a ternary
(`… ? 1 : 0`) are always numbers and are modelled as integers directly; the
`|| 0` fields can carry through any truthy JS value and stay `JSValue`. -/
structure MetricsRecord where
  timestamp : String
  filling : ℤ
  capping : ℤ
  labeling : ℤ
  throughput : JSValue
  errorRate : JSValue
  bottlesInProgress : JSValue
  fillLevel : JSValue
  cappingState : ℤ
  labelingSpeed : JSValue
  conveyorSpeed : JSValue
  fillingUtilization : JSValue
  cappingUtilization : JSValue
  labelingUtilization : JSValue

/-- The record literal of `App.js` lines 39–58: the Telemetry Normalizer.
`ts` stands for `new Date().toLocaleTimeString()` (wall-clock at receipt). -/
def normalize (data : JSValue) (ts : String) : MetricsRecord where
  timestamp := ts
  filling := toBit ((((data.getProp "process").getProp "stations").getProp "filling").getProp "busy")
  capping := toBit ((((data.getProp "process").getProp "stations").getProp "capping").getProp "busy")
  labeling := toBit ((((data.getProp "process").getProp "stations").getProp "labeling").getProp "busy")
  throughput := jsOr ((data.getProp "stats").getProp "throughput") (num 0)
  errorRate := jsMul (jsOr ((data.getProp "stats").getProp "error_rate") (num 0)) 100
  bottlesInProgress := jsOr (((data.getProp "process").getProp "bottles").getProp "length") (num 0)
  fillLevel := jsOr ((((data.getProp "process").getProp "stations").getProp "filling").getProp "level") (num 0)
  cappingState := toBit ((((data.getProp "process").getProp "stations").getProp "capping").getProp "actuator_state")
  labelingSpeed := jsOr ((((data.getProp "process").getProp "stations").getProp "labeling").getProp "motor_speed") (num 0)
  conveyorSpeed := jsOr ((data.getProp "process").getProp "conveyor_speed") (num 0)
  fillingUtilization := jsOr (((data.getProp "stats").getProp "station_utilization").getProp "filling") (num 0)
  cappingUtilization := jsOr (((data.getProp "stats").getProp "station_utilization").getProp "capping") (num 0)
  labelingUtilization := jsOr (((data.getProp "stats").getProp "station_utilization").getProp "labeling") (num 0)

/-- The all-default record: what `normalize` yields when no source field is
reachable (every leaf read gives `undefined`). -/
def defaultRecord (ts : String) : MetricsRecord where
  timestamp := ts
  filling := 0
  capping := 0
  labeling := 0
  throughput := num 0
  errorRate := num 0
  bottlesInProgress := num 0
  fillLevel := num 0
  cappingState := 0
  labelingSpeed := num 0
  conveyorSpeed := num 0
  fillingUtilization := num 0
  cappingUtilization := num 0
  labelingUtilization := num 0

/-- JavaScript `xs.slice(-n)` for `n > 0`: the last `min n xs.length`
elements, in order. -/
def sliceLast (n : Nat) (xs : List α) : List α :=
  xs.drop (xs.length - n)

/-- One append to `timeSeriesData`: `[...prev, r].slice(-50)` (line 58). -/
def windowAppend (prev : List MetricsRecord) (r : MetricsRecord) : List MetricsRecord :=
  sliceLast 50 (prev ++ [r])

/-- The `App` component's state: `isConnected`, `timeSeriesData`,
`bottleStates` (lines 28–30).  `timeSeriesData` is the Window
(`snapshotSequence()` reads it), `bottleStates` the categorical Snapshot
(`current()` reads it). -/
structure DashState where
  isConnected : Bool
  timeSeriesData : List MetricsRecord
  bottleStates : JSValue

/-- Initial state: `useState(false)`, `useState([])`, `useState({})`. -/
def initState : DashState where
  isConnected := false
  timeSeriesData := []
  bottleStates := obj []

/-- Events delivered by the websocket hook to the component.  A message
carries the result of `JSON.parse` on its data: `none` when parsing threw
(the `catch` branch), `some v` otherwise; `ts` is the receipt wall-clock
label.  The source registers no `onError` handler, so an error event is in
the vocabulary but has no attached callback. -/
inductive WsEvent where
  | evOpen
  | evClose
  | evError
  | evMessage (parsed : Option JSValue) (ts : String)

open WsEvent

/-- The body of `onMessage` after a successful parse (lines 38–61):
falsy `data` is dropped by `if (data)`; otherwise a normalized record is
appended to the sliding window and `bottleStates` is wholesale-replaced by
`data.bottleStates || {}`. -/
def handleParsed (data : JSValue) (ts : String) (st : DashState) : DashState :=
  if data.truthy then
    { st with
      timeSeriesData := windowAppend st.timeSeriesData (normalize data ts)
      bottleStates := jsOr (data.getProp "bottleStates") (obj []) }
  else st

/-- The component's reaction to one websocket event (lines 33–65):
`onOpen` sets `isConnected := true`, `onClose` sets it `false`; an error
event has no handler and changes nothing; a message whose parse failed is
caught, logged, and dropped (state unchanged). `step` is a total function:
no event makes the handler raise past the message-handling boundary. -/
def step (st : DashState) (e : WsEvent) : DashState :=
  match e with
  | evOpen => { st with isConnected := true }
  | evClose => { st with isConnected := false }
  | evError => st
  | evMessage none _ => st
  | evMessage (some data) ts => handleParsed data ts st

/-- Line 66: `shouldReconnect: () => true` — the reconnect decision the hook
consults after every close. -/
def shouldReconnect (_closeEvent : WsEvent) : Bool :=
  true

end App

open App WsEvent

/-! Concrete inputs used by the scenario claims, and spec-side predicates. -/

/-- A push payload carrying only a throughput value, as in the 51-push
scenario. -/
def mkThroughputMsg (q : ℤ) : JSValue :=
  JSValue.obj [("stats", JSValue.obj [("throughput", JSValue.num q)])]

/-- The 51 consecutive pushes of the scenario, carrying throughput 1..51. -/
def c1Events : List WsEvent :=
  (List.range 51).map (fun i => WsEvent.evMessage (some (mkThroughputMsg ((i : ℤ) + 1))) "t")

/-- The scenario message `{process:{stations:{filling:{busy:true,level:42}}}}`. -/
def c6Msg : JSValue :=
  JSValue.obj [("process", JSValue.obj [("stations", JSValue.obj
    [("filling", JSValue.obj [("busy", JSValue.bool true), ("level", JSValue.num 42)])])])]

/-- A payload whose `stats.throughput` is the negative number `-5`. -/
def c5CexMsg : JSValue :=
  JSValue.obj [("stats", JSValue.obj [("throughput", JSValue.num (-5))])]

/-- A payload whose `stats.throughput` is the non-negative number `7`. -/
def c5WitnessMsg : JSValue :=
  JSValue.obj [("stats", JSValue.obj [("throughput", JSValue.num 7)])]

/-- A payload carrying a nonempty discrete-state mapping. -/
def c2SetupMsg : JSValue :=
  JSValue.obj [("bottleStates", JSValue.obj [("full", JSValue.num 3)])]

/-- A payload whose `bottleStates` field is a truthy non-object value. -/
def c10CexMsg : JSValue :=
  JSValue.obj [("bottleStates", JSValue.num 5)]

/-- Spec-side predicate: the snapshot value is a mapping object. -/
def isMapping : JSValue → Bool
  | JSValue.obj _ => true
  | _ => false

/-- Spec-side predicate on a leaf read from the payload: if truthy, it is a
non-negative number (the hypothesis under which `|| 0` defaulting yields a
non-negative numeric field). -/
def NonNegLeaf (v : JSValue) : Prop :=
  v.truthy = true → ∃ q : ℤ, v = JSValue.num q ∧ 0 ≤ q

set_option maxRecDepth 10000

/-! Helper lemmas about the sliding window and the snapshot. -/

theorem length_sliceLast (n : Nat) (xs : List α) : (App.sliceLast n xs).length ≤ n := by
  simp [App.sliceLast]
  omega

theorem sliceLast_append_singleton (n : Nat) (hn : 0 < n) (xs : List α) (r : α) :
    App.sliceLast n (App.sliceLast n xs ++ [r]) = App.sliceLast n (xs ++ [r]) := by
  unfold App.sliceLast
  rcases Nat.le_total xs.length n with h | h
  · have h0 : xs.length - n = 0 := by omega
    simp [h0]
  · have e1 : (xs.drop (xs.length - n) ++ [r]).length - n = 1 := by simp; omega
    have e2 : (xs ++ [r]).length - n = xs.length + 1 - n := by simp
    rw [e1, e2]
    rw [List.drop_append_of_le_length (by simp; omega)]
    rw [List.drop_append_of_le_length (by omega)]
    rw [List.drop_drop]
    congr 2
    omega

theorem foldl_windowAppend (rs : List App.MetricsRecord) (xs : List App.MetricsRecord) :
    rs.foldl App.windowAppend (App.sliceLast 50 xs) = App.sliceLast 50 (xs ++ rs) := by
  induction rs generalizing xs with
  | nil => simp
  | cons r rs ih =>
    rw [List.foldl_cons]
    have h1 : App.windowAppend (App.sliceLast 50 xs) r = App.sliceLast 50 (xs ++ [r]) :=
      sliceLast_append_singleton 50 (by omega) xs r
    rw [h1, ih (xs ++ [r])]
    simp

theorem window_is_last50 (rs : List App.MetricsRecord) :
    rs.foldl App.windowAppend [] = rs.drop (rs.length - 50) := by
  have h := foldl_windowAppend rs []
  simpa [App.sliceLast] using h

theorem jsOr_truthy_of_right (a b : JSValue) (hb : b.truthy = true) :
    (JSValue.jsOr a b).truthy = true := by
  unfold JSValue.jsOr
  by_cases ha : a.truthy = true
  · simp [ha]
  · simp [ha, hb]

theorem jsOr_zero_nonneg (v : JSValue) (h : NonNegLeaf v) :
    ∃ q : ℤ, JSValue.jsOr v (JSValue.num 0) = JSValue.num q ∧ 0 ≤ q := by
  by_cases ht : v.truthy = true
  · obtain ⟨q, rfl, hq⟩ := h ht
    exact ⟨q, by simp [JSValue.jsOr, ht], hq⟩
  · exact ⟨0, by simp [JSValue.jsOr, ht], le_refl 0⟩

theorem step_bottleStates_truthy (st : App.DashState) (e : WsEvent)
    (h : st.bottleStates.truthy = true) : ((App.step st e).bottleStates).truthy = true := by
  cases e with
  | evOpen => exact h
  | evClose => exact h
  | evError => exact h
  | evMessage p ts =>
    cases p with
    | none => exact h
    | some data =>
      by_cases hd : data.truthy = true
      · simp [App.step, App.handleParsed, hd]
        exact jsOr_truthy_of_right _ _ rfl
      · simp [App.step, App.handleParsed, hd, h]

theorem foldl_step_bottleStates_truthy (events : List WsEvent) (st : App.DashState)
    (h : st.bottleStates.truthy = true) :
    ((events.foldl App.step st).bottleStates).truthy = true := by
  induction events generalizing st with
  | nil => exact h
  | cons e es ih => exact ih _ (step_bottleStates_truthy st e h)

/-! Claim theorems. -/

/-- C1: For every sequence of appended records the window holds at most 50
elements, and exactly the most recent ones in arrival order (FIFO eviction:
the result of folding appends is the last-50 suffix of the full sequence);
and after 51 consecutive pushes carrying throughput 1..51 the window holds
exactly the records with throughput 2..51 in order. -/
theorem c1_window_fifo_last50 :
    (∀ rs : List App.MetricsRecord,
        (rs.foldl App.windowAppend []).length ≤ 50 ∧
        rs.foldl App.windowAppend [] = rs.drop (rs.length - 50)) ∧
    (c1Events.foldl App.step App.initState).timeSeriesData.map App.MetricsRecord.throughput =
      (List.range 50).map (fun i => JSValue.num ((i : ℤ) + 2)) := by
  constructor
  · intro rs
    refine ⟨?_, window_is_last50 rs⟩
    rw [window_is_last50 rs]
    simp
    omega
  · rfl

/-- C2 counterexample: after installing the snapshot `{full: 3}`, processing
the message `{}` — which carries no `bottleStates` field — replaces the
snapshot with the empty mapping instead of leaving it unchanged, refuting
the claimed absence/emptiness asymmetry. -/
theorem c2_absent_field_clears_cex :
    (App.step App.initState (WsEvent.evMessage (some c2SetupMsg) "t")).bottleStates =
      JSValue.obj [("full", JSValue.num 3)] ∧
    (App.step (App.step App.initState (WsEvent.evMessage (some c2SetupMsg) "t"))
        (WsEvent.evMessage (some (JSValue.obj [])) "t")).bottleStates = JSValue.obj [] ∧
    JSValue.obj [("full", JSValue.num 3)] ≠ JSValue.obj [] :=
  ⟨rfl, rfl, by simp⟩

/-- C2 (amended): a processed message with no discrete-state field and a
processed message with an explicitly empty discrete-state mapping both
wholesale-replace the snapshot with the empty mapping — absence and explicit
emptiness are not distinguished; both clear prior state. -/
theorem c2_absent_and_empty_both_clear :
    (∀ (data : JSValue) (st : App.DashState) (ts : String), data.truthy = true →
        data.getProp "bottleStates" = JSValue.undef →
        (App.step st (WsEvent.evMessage (some data) ts)).bottleStates = JSValue.obj []) ∧
    (∀ (data : JSValue) (st : App.DashState) (ts : String), data.truthy = true →
        data.getProp "bottleStates" = JSValue.obj [] →
        (App.step st (WsEvent.evMessage (some data) ts)).bottleStates = JSValue.obj []) := by
  constructor <;>
  · intro data st ts ht hb
    show (App.handleParsed data ts st).bottleStates = JSValue.obj []
    unfold App.handleParsed
    rw [ht]
    simp [hb, JSValue.jsOr, JSValue.truthy]

/-- C2 witness: the amended theorem applied to concrete messages — one with
no `bottleStates` field, one with `bottleStates: {}` — from the initial
state. -/
theorem c2_absent_and_empty_both_clear_witness :
    (App.step App.initState
        (WsEvent.evMessage (some (JSValue.obj [("x", JSValue.num 1)])) "t")).bottleStates =
      JSValue.obj [] ∧
    (App.step App.initState
        (WsEvent.evMessage (some (JSValue.obj [("bottleStates", JSValue.obj [])])) "t")).bottleStates =
      JSValue.obj [] :=
  ⟨c2_absent_and_empty_both_clear.1 _ App.initState "t" rfl rfl,
   c2_absent_and_empty_both_clear.2 _ App.initState "t" rfl rfl⟩

/-- C3 counterexample: the decoded payload `null` is dropped by the
`if (data)` guard — no record (all-default or otherwise) is produced or
appended, refuting the claim that non-object top-level values are normalized
and appended rather than skipped. -/
theorem c3_null_not_appended_cex :
    App.step App.initState (WsEvent.evMessage (some JSValue.null) "t") = App.initState ∧
    App.initState.timeSeriesData.length = 0 :=
  ⟨rfl, rfl⟩

/-- C3 (amended): the record construction itself is total — every non-object
value (and the empty object) normalizes to the all-default record with every
field present and numeric — but the handler appends a normalized record only
for truthy decoded payloads; falsy ones (`null`, `false`, `0`, `""`) are
dropped without appending. -/
theorem c3_normalize_total_truthy_appended :
    (∀ (data : JSValue) (ts : String), (∀ fs, data ≠ JSValue.obj fs) →
        App.normalize data ts = App.defaultRecord ts) ∧
    (∀ ts : String, App.normalize (JSValue.obj []) ts = App.defaultRecord ts) ∧
    (∀ (data : JSValue) (st : App.DashState) (ts : String), data.truthy = true →
        (App.step st (WsEvent.evMessage (some data) ts)).timeSeriesData =
          App.windowAppend st.timeSeriesData (App.normalize data ts)) := by
  refine ⟨?_, fun ts => rfl, ?_⟩
  · intro data ts hno
    cases data with
    | obj fs => exact absurd rfl (hno fs)
    | undef => rfl
    | null => rfl
    | bool b => rfl
    | num q => rfl
    | str s => rfl
    | arr xs => rfl
    | nan => rfl
  · intro data st ts ht
    simp [App.step, App.handleParsed, ht]

/-- C3 witness: the amended theorem applied to `null` (normalizes to the
all-default record) and to the truthy payload `{}` (appended to the
window). -/
theorem c3_normalize_total_truthy_appended_witness :
    App.normalize JSValue.null "t" = App.defaultRecord "t" ∧
    (App.step App.initState (WsEvent.evMessage (some (JSValue.obj [])) "t")).timeSeriesData =
      App.windowAppend App.initState.timeSeriesData (App.normalize (JSValue.obj []) "t") :=
  ⟨c3_normalize_total_truthy_appended.1 JSValue.null "t" (fun _ h => JSValue.noConfusion h),
   c3_normalize_total_truthy_appended.2.2 (JSValue.obj []) App.initState "t" rfl⟩

/-- C4: a failed JSON decode is caught and dropped: the state — in
particular `timeSeriesData` (read by `snapshotSequence()`) and
`bottleStates` (read by `current()`) — is unchanged, and `step` being a
total function, no exception escapes the message-handling boundary. -/
theorem c4_decode_failure_noop (st : App.DashState) (ts : String) :
    App.step st (WsEvent.evMessage none ts) = st :=
  rfl

/-- C5 counterexample: the truthy negative number `-5` in `stats.throughput`
passes through `|| 0` unchanged, so the normalized throughput is `-5 < 0`,
refuting the claim that the normalized fields are always ≥ 0. -/
theorem c5_negative_throughput_cex :
    c5CexMsg.truthy = true ∧
    (App.normalize c5CexMsg "t").throughput = JSValue.num (-5) ∧
    (-5 : ℤ) < 0 :=
  ⟨rfl, rfl, by norm_num⟩

/-- C5 (amended): a missing, `null`, or otherwise falsy leaf — including any
missing intermediate segment of a deeply nested path — defaults to 0, and
truthy values pass through unchanged (throughput, bottles length) or scaled
by 100 (error rate); hence `throughput`, `errorRate` and `bottlesInProgress`
are non-negative numbers whenever each corresponding source leaf, if truthy,
is a non-negative number. -/
theorem c5_defaulting_nonneg :
    (∀ (data : JSValue) (ts : String),
        NonNegLeaf ((data.getProp "stats").getProp "throughput") →
        NonNegLeaf ((data.getProp "stats").getProp "error_rate") →
        NonNegLeaf (((data.getProp "process").getProp "bottles").getProp "length") →
        (∃ q : ℤ, (App.normalize data ts).throughput = JSValue.num q ∧ 0 ≤ q) ∧
        (∃ q : ℤ, (App.normalize data ts).errorRate = JSValue.num q ∧ 0 ≤ q) ∧
        (∃ q : ℤ, (App.normalize data ts).bottlesInProgress = JSValue.num q ∧ 0 ≤ q)) ∧
    (∀ (data : JSValue) (ts : String),
        ((data.getProp "stats").getProp "throughput").truthy = false →
        (App.normalize data ts).throughput = JSValue.num 0) := by
  constructor
  · intro data ts hT hE hB
    refine ⟨jsOr_zero_nonneg _ hT, ?_, jsOr_zero_nonneg _ hB⟩
    obtain ⟨q, hq, h0⟩ := jsOr_zero_nonneg _ hE
    refine ⟨q * 100, ?_, mul_nonneg h0 (by norm_num)⟩
    show JSValue.jsMul
        (JSValue.jsOr ((data.getProp "stats").getProp "error_rate") (JSValue.num 0)) 100 =
      JSValue.num (q * 100)
    rw [hq]
    rfl
  · intro data ts hf
    show JSValue.jsOr ((data.getProp "stats").getProp "throughput") (JSValue.num 0) =
      JSValue.num 0
    unfold JSValue.jsOr
    rw [hf]
    rfl

/-- C5 witness: the amended theorem applied to the concrete payload
`{stats:{throughput:7}}` — present leaf non-negative, the other leaves
absent. -/
theorem c5_defaulting_nonneg_witness :
    (∃ q : ℤ, (App.normalize c5WitnessMsg "t").throughput = JSValue.num q ∧ 0 ≤ q) ∧
    (∃ q : ℤ, (App.normalize c5WitnessMsg "t").errorRate = JSValue.num q ∧ 0 ≤ q) ∧
    (∃ q : ℤ, (App.normalize c5WitnessMsg "t").bottlesInProgress = JSValue.num q ∧ 0 ≤ q) :=
  c5_defaulting_nonneg.1 c5WitnessMsg "t"
    (fun _ => ⟨7, rfl, by norm_num⟩)
    (fun h => absurd h (by decide))
    (fun h => absurd h (by decide))

/-- C6: processing `{process:{stations:{filling:{busy:true,level:42}}}}`
appends exactly one record, with `filling = 1`, `fillLevel = 42`,
`capping = 0`, `throughput = 0`. -/
theorem c6_filling_scenario :
    (App.step App.initState (WsEvent.evMessage (some c6Msg) "t")).timeSeriesData.map
      (fun r => (r.filling, r.fillLevel, r.capping, r.throughput)) =
    [(1, JSValue.num 42, 0, JSValue.num 0)] :=
  rfl

/-- C7 counterexample: after a successful open, an error event leaves
`isConnected = true` — the source registers no `onError` handler — refuting
the claim that an error event flips the health state to false. -/
theorem c7_error_event_cex :
    (App.step (App.step App.initState WsEvent.evOpen) WsEvent.evError).isConnected = true :=
  rfl

/-- C7 (amended): the health state starts as `connected = false`, flips to
true on an open event and to false on a close event, each from any state;
an error event has no handler and leaves the state unchanged (the flag flips
only when the accompanying close fires); the state is a total field of the
component state and is never destroyed. -/
theorem c7_connection_lifecycle :
    App.initState.isConnected = false ∧
    (∀ st : App.DashState, (App.step st WsEvent.evOpen).isConnected = true) ∧
    (∀ st : App.DashState, (App.step st WsEvent.evClose).isConnected = false) ∧
    (∀ st : App.DashState, App.step st WsEvent.evError = st) :=
  ⟨rfl, fun _ => rfl, fun _ => rfl, fun _ => rfl⟩

/-- C8: the reconnect decision (`shouldReconnect: () => true`) is
unconditionally true for every close event — continuous reconnect intent,
no capped retry count. -/
theorem c8_reconnect_always_true : ∀ e : WsEvent, App.shouldReconnect e = true :=
  fun _ => rfl

/-- C9: a successfully decoded but falsy payload (`null`, `false`, `0`,
`""`) is dropped entirely by the `if (data)` guard: no record is appended
and the categorical snapshot is unchanged (the whole state is unchanged). -/
theorem c9_falsy_payload_dropped (data : JSValue) (st : App.DashState) (ts : String)
    (h : data.truthy = false) :
    App.step st (WsEvent.evMessage (some data) ts) = st := by
  show App.handleParsed data ts st = st
  unfold App.handleParsed
  rw [h]
  simp

/-- C9 witness: the theorem applied to the decoded payload `null` at the
initial state. -/
theorem c9_falsy_payload_dropped_witness :
    JSValue.truthy JSValue.null = false ∧
    App.step App.initState (WsEvent.evMessage (some JSValue.null) "t") = App.initState :=
  ⟨rfl, c9_falsy_payload_dropped JSValue.null App.initState "t" rfl⟩

/-- C10 counterexample: a message whose `bottleStates` field is the truthy
non-object value `5` stores that value as the snapshot, refuting the claim
that the snapshot is always a mapping object. -/
theorem c10_nonmapping_snapshot_cex :
    (App.step App.initState (WsEvent.evMessage (some c10CexMsg) "t")).bottleStates =
      JSValue.num 5 ∧
    isMapping (JSValue.num 5) = false :=
  ⟨rfl, rfl⟩

/-- C10 (amended): the snapshot starts as the empty mapping and is never
falsy — in particular never `null` or `undefined` — in any reachable state;
a processed message whose `bottleStates` field is falsy (e.g. `null`)
replaces the snapshot with the empty mapping rather than storing the falsy
value; but a truthy non-object field value is stored as-is. -/
theorem c10_snapshot_never_falsy :
    App.initState.bottleStates = JSValue.obj [] ∧
    (∀ events : List WsEvent,
        ((events.foldl App.step App.initState).bottleStates).truthy = true) ∧
    (∀ (data : JSValue) (st : App.DashState) (ts : String), data.truthy = true →
        (data.getProp "bottleStates").truthy = false →
        (App.step st (WsEvent.evMessage (some data) ts)).bottleStates = JSValue.obj []) := by
  refine ⟨rfl, fun events => foldl_step_bottleStates_truthy events App.initState rfl, ?_⟩
  intro data st ts ht hb
  show (App.handleParsed data ts st).bottleStates = JSValue.obj []
  unfold App.handleParsed
  rw [ht]
  simp [JSValue.jsOr, hb]

/-- C10 witness: the amended theorem applied to the message
`{bottleStates: null}` at the initial state, and to a two-event trace. -/
theorem c10_snapshot_never_falsy_witness :
    (App.step App.initState
        (WsEvent.evMessage (some (JSValue.obj [("bottleStates", JSValue.null)])) "t")).bottleStates =
      JSValue.obj [] :=
  c10_snapshot_never_falsy.2.2 _ App.initState "t" rfl rfl
